import Mathlib

/-! Verification development for the SX9324 capacitive SAR controller driver
(sx9324.c).  The driver is embedded shallowly: the 8-bit register bus is a
state (`Bus`) carrying the register file together with read/write fault
oracles (a nonzero code is a Linux error value encoded as a 32-bit
two's-complement bit pattern, so the driver's `error |= ...` accumulation
is `Nat.lor`).  Each driver function is transcribed from the C source;
performed bus operations are reported as `BusOp` traces where a claim
needs them. -/

/-! ## Register map constants (from sx9324.c) -/

def SX9324_IRQ_SRC : Nat := 0x00
def SX9324_STAT_0 : Nat := 0x01
def SX9324_STAT_1 : Nat := 0x02
def SX9324_STAT_2 : Nat := 0x03
def SX9324_IRQ_MSK : Nat := 0x05
def SX9324_GNRL_CTRL_0 : Nat := 0x10
def SX9324_GNRL_CTRL_1 : Nat := 0x11
def SX9324_AFE_PH_0 : Nat := 0x28
def SX9324_PHASE_SEL : Nat := 0x60
def SX9324_USE_MSB : Nat := 0x61
def SX9324_USE_LSB : Nat := 0x62
def SX9324_AVG_MSB : Nat := 0x63
def SX9324_AVG_LSB : Nat := 0x64
def SX9324_DIFF_MSB : Nat := 0x65
def SX9324_DIFF_LSB : Nat := 0x66
def SX9324_RESET : Nat := 0x9f

/-- GENMASK(6,5): the doze-period sub-field of SX9324_GNRL_CTRL_0. -/
def SX9324_DOZEPERIOD : Nat := 0x60

/-- GENMASK(3,0): the phase-enable field of SX9324_GNRL_CTRL_1. -/
def SX9324_PHEN : Nat := 0x0f

def SX9324_CLOSEANYIRQEN : Nat := 0x40
def SX9324_FARANYIRQEN : Nat := 0x20

/-- Linux error code -ENODEV as a 32-bit two's-complement bit pattern (2^32 - 19). -/
def ENODEV : Nat := 4294967277

/-- Linux error code -EINVAL as a 32-bit two's-complement bit pattern (2^32 - 22). -/
def EINVAL : Nat := 4294967274

/-- The C enum sx9324_operational_mode, in declaration order. -/
def SX9324_ACTIVE : Nat := 0
def SX9324_DOZE : Nat := 1
def SX9324_SLEEP : Nat := 2

/-! ## Bus model -/

/-- One bus transaction, as recorded in operation traces. -/
inductive BusOp where
  | read : Nat → BusOp
  | write : Nat → Nat → BusOp
deriving DecidableEq

/-- The register bus: the register file plus fault oracles.  `readErr a`
(resp. `writeErr a v`) is the error code a `regmap_read` of `a` (resp. a
`regmap_write` of `v` to `a`) returns; 0 means success. -/
structure Bus where
  regs : Nat → Nat
  readErr : Nat → Nat
  writeErr : Nat → Nat → Nat

def setReg (b : Bus) (addr val : Nat) : Bus :=
  { b with regs := fun a => if a = addr then val else b.regs a }

/-- regmap_write: the register is updated only when the write succeeds. -/
def regmap_write (b : Bus) (addr val : Nat) : Nat × Bus :=
  let e := b.writeErr addr val
  if e = 0 then (0, setReg b addr val) else (e, b)

/-- regmap_update_bits: read-modify-write of the bits selected by `mask`
(8-bit registers, so the complement of the mask is taken in 8 bits),
skipping the bus write when the register value would not change, as the
Linux regmap API does. -/
def regmap_update_bits (b : Bus) (addr mask val : Nat) : Nat × Bus × List BusOp :=
  let e := b.readErr addr
  if e ≠ 0 then (e, b, [BusOp.read addr])
  else
    let orig := b.regs addr
    let tmp := (orig &&& (255 ^^^ mask)) ||| (val &&& mask)
    if tmp = orig then (0, b, [BusOp.read addr])
    else
      let w := regmap_write b addr tmp
      (w.1, w.2, [BusOp.read addr, BusOp.write addr tmp])

/-! ## Software defaults (sx9324_reg_defaults) -/

def sx9324_reg_defaults : List (Nat × Nat) :=
  [(SX9324_IRQ_MSK, SX9324_CLOSEANYIRQEN ||| SX9324_FARANYIRQEN),
   (SX9324_GNRL_CTRL_0, 0x45),
   (SX9324_AFE_PH_0, 0x29),
   (SX9324_GNRL_CTRL_1, 0x21)]

def lookupDefault : List (Nat × Nat) → Nat → Option Nat
  | [], _ => none
  | rv :: rest, reg => if rv.1 = reg then some rv.2 else lookupDefault rest reg

/-- sx9324_get_software_default: first matching entry of the compiled-in
default table, or none. -/
def sx9324_get_software_default (reg : Nat) : Option Nat :=
  lookupDefault sx9324_reg_defaults reg

/-- sx9324_reset_software_default: write every default-table entry in table
order, stopping at the first failure.  Returns (error, bus, trace of
attempted writes, address logged on failure). -/
def applyDefaults (b : Bus) : List (Nat × Nat) → Nat × Bus × List BusOp × Option Nat
  | [] => (0, b, [], none)
  | rv :: rest =>
    let w := regmap_write b rv.1 rv.2
    if w.1 ≠ 0 then (w.1, w.2, [BusOp.write rv.1 rv.2], some rv.1)
    else
      let r := applyDefaults w.2 rest
      (r.1, r.2.1, BusOp.write rv.1 rv.2 :: r.2.2.1, r.2.2.2)

def sx9324_reset_software_default (b : Bus) : Nat × Bus × List BusOp × Option Nat :=
  applyDefaults b sx9324_reg_defaults

/-- The bus after applying a list of (address, value) writes that all
succeed. -/
def writeAll (b : Bus) : List (Nat × Nat) → Bus
  | [] => b
  | rv :: rest => writeAll (setReg b rv.1 rv.2) rest

/-! ## Power rails (sx9324_enable_pullup / sx9324_enable_vdd) -/

/-- The two regulator shadow flags of struct sx9324_data. -/
structure RailCtl where
  pullup_enabled : Bool
  vdd_enabled : Bool
deriving DecidableEq

/-- sx9324_enable_pullup.  `pullupErr on` is the error code of the
underlying regulator enable (on = true) / disable (on = false) primitive.
The third component counts the regulator invocations performed. -/
def sx9324_enable_pullup (pullupErr : Bool → Nat) (d : RailCtl) (enable : Bool) :
    Nat × RailCtl × Nat :=
  if d.pullup_enabled ≠ enable then
    let e := pullupErr enable
    if e = 0 then (0, { d with pullup_enabled := enable }, 1) else (e, d, 1)
  else (0, d, 0)

/-- sx9324_enable_vdd, same shape as sx9324_enable_pullup. -/
def sx9324_enable_vdd (vddErr : Bool → Nat) (d : RailCtl) (enable : Bool) :
    Nat × RailCtl × Nat :=
  if d.vdd_enabled ≠ enable then
    let e := vddErr enable
    if e = 0 then (0, { d with vdd_enabled := enable }, 1) else (e, d, 1)
  else (0, d, 0)

/-! ## Phase data acquisition (sx9324_read_phdata) -/

/-- The six per-phase status bits of struct sx9324_phase_stat (C one-bit
bitfields, hence 0/1 valued). -/
structure PhaseStat where
  steady : Nat
  prox : Nat
  table : Nat
  body : Nat
  fail : Nat
  comp : Nat
deriving DecidableEq

/-- One entry of struct sx9324_phase_data. -/
structure PhaseData where
  is_valid : Bool
  proxuseful : Int
  proxavg : Int
  proxdiff : Int
  stat : PhaseStat
deriving DecidableEq

/-- The C cast (short)((msb << 8) | lsb): reinterpret the low 16 bits as a
two's-complement signed value. -/
def toShort (n : Nat) : Int :=
  if n % 65536 < 32768 then ((n % 65536 : Nat) : Int)
  else ((n % 65536 : Nat) : Int) - 65536

/-- The six status-bit extractions of sx9324_read_phdata for phase `i`:
bit i+4 and bit i of each status register. -/
def decodeStat (s0 s1 s2 i : Nat) : PhaseStat :=
  ⟨(s0 >>> (i + 4)) &&& 1, (s0 >>> i) &&& 1,
   (s1 >>> (i + 4)) &&& 1, (s1 >>> i) &&& 1,
   (s2 >>> (i + 4)) &&& 1, (s2 >>> i) &&& 1⟩

/-- Write one entry of the phase-data array, as the C assignments to
drv_data->phdata[i] do. -/
def updAt (ph : Fin 4 → PhaseData) (i : Fin 4) (pd : PhaseData) : Fin 4 → PhaseData :=
  fun j => if j = i then pd else ph j

/-- Third stage of the per-phase body: the DIFF MSB/LSB pair, then the
status-bit assignments and the validity mark (no fallible access between
those last assignments in the C). -/
def phaseStepDiff (b1 : Bus) (s0 s1 s2 : Nat) (ph : Fin 4 → PhaseData) (i : Fin 4) :
    Nat × Bus × (Fin 4 → PhaseData) :=
  let ed := b1.readErr SX9324_DIFF_MSB ||| b1.readErr SX9324_DIFF_LSB
  if ed ≠ 0 then (ed, b1, ph)
  else
    let dv := toShort ((b1.regs SX9324_DIFF_MSB <<< 8) ||| b1.regs SX9324_DIFF_LSB)
    let ph3 := updAt ph i { ph i with proxdiff := dv }
    let ph4 := updAt ph3 i { ph3 i with stat := decodeStat s0 s1 s2 (i : Nat) }
    let ph5 := updAt ph4 i { ph4 i with is_valid := true }
    (0, b1, ph5)

/-- Second stage of the per-phase body: the AVG MSB/LSB pair. -/
def phaseStepAvg (b1 : Bus) (s0 s1 s2 : Nat) (ph : Fin 4 → PhaseData) (i : Fin 4) :
    Nat × Bus × (Fin 4 → PhaseData) :=
  let ea := b1.readErr SX9324_AVG_MSB ||| b1.readErr SX9324_AVG_LSB
  if ea ≠ 0 then (ea, b1, ph)
  else
    let av := toShort ((b1.regs SX9324_AVG_MSB <<< 8) ||| b1.regs SX9324_AVG_LSB)
    phaseStepDiff b1 s0 s1 s2 (updAt ph i { ph i with proxavg := av }) i

/-- First stage of the per-phase body: the USE MSB/LSB pair. -/
def phaseStepUseful (b1 : Bus) (s0 s1 s2 : Nat) (ph : Fin 4 → PhaseData) (i : Fin 4) :
    Nat × Bus × (Fin 4 → PhaseData) :=
  let eu := b1.readErr SX9324_USE_MSB ||| b1.readErr SX9324_USE_LSB
  if eu ≠ 0 then (eu, b1, ph)
  else
    let u := toShort ((b1.regs SX9324_USE_MSB <<< 8) ||| b1.regs SX9324_USE_LSB)
    phaseStepAvg b1 s0 s1 s2 (updAt ph i { ph i with proxuseful := u }) i

/-- The body of sx9324_read_phdata's loop for one enabled phase `i`:
select the phase, then read the three MSB/LSB pairs (updating the entry
after each successful pair, exactly as the C assigns the fields), decode
the status bits and mark the entry valid.  Any failure returns
immediately, leaving the entry as far as it got and still invalid. -/
def phaseStep (b : Bus) (s0 s1 s2 : Nat) (ph : Fin 4 → PhaseData) (i : Fin 4) :
    Nat × Bus × (Fin 4 → PhaseData) :=
  let w := regmap_write b SX9324_PHASE_SEL (i : Nat)
  if w.1 ≠ 0 then (w.1, w.2, ph)
  else phaseStepUseful w.2 s0 s1 s2 ph i

/-- The phase loop of sx9324_read_phdata: phases in index order, skipping
disabled ones, aborting on the first error. -/
def phdataLoop (val s0 s1 s2 : Nat) :
    Bus → (Fin 4 → PhaseData) → List (Fin 4) → Nat × Bus × (Fin 4 → PhaseData)
  | b, ph, [] => (0, b, ph)
  | b, ph, i :: rest =>
    if (val >>> (i : Nat)) &&& 1 ≠ 0 then
      let r := phaseStep b s0 s1 s2 ph i
      if r.1 ≠ 0 then r
      else phdataLoop val s0 s1 s2 r.2.1 r.2.2 rest
    else phdataLoop val s0 s1 s2 b ph rest

/-- sx9324_read_phdata: mark all entries invalid, read the phase-enable
register (early return on failure), and when any phase is enabled read the
three status registers once and run the per-phase loop. -/
def sx9324_read_phdata (b : Bus) (ph : Fin 4 → PhaseData) :
    Nat × Bus × (Fin 4 → PhaseData) :=
  let ph0 := fun i => { ph i with is_valid := false }
  let e := b.readErr SX9324_GNRL_CTRL_1
  if e ≠ 0 then (e, b, ph0)
  else
    let val := b.regs SX9324_GNRL_CTRL_1
    if val &&& SX9324_PHEN ≠ 0 then
      let es := (b.readErr SX9324_STAT_0 ||| b.readErr SX9324_STAT_1) |||
        b.readErr SX9324_STAT_2
      if es ≠ 0 then (es, b, ph0)
      else
        phdataLoop val (b.regs SX9324_STAT_0) (b.regs SX9324_STAT_1)
          (b.regs SX9324_STAT_2) b ph0 [0, 1, 2, 3]
    else (0, b, ph0)

/-! ## Mode state machine (sx9324_get_mode / sx9324_set_mode) -/

/-- sx9324_get_mode: (error, mode written through the out-parameter, which
is untouched — `none` — on error). -/
def sx9324_get_mode (b : Bus) : Nat × Option Nat :=
  let e := b.readErr SX9324_GNRL_CTRL_1
  if e ≠ 0 then (e, none)
  else if b.regs SX9324_GNRL_CTRL_1 &&& SX9324_PHEN ≠ 0 then
    let e2 := b.readErr SX9324_GNRL_CTRL_0
    if e2 ≠ 0 then (e2, none)
    else if b.regs SX9324_GNRL_CTRL_0 &&& SX9324_DOZEPERIOD ≠ 0 then
      (0, some SX9324_DOZE)
    else (0, some SX9324_ACTIVE)
  else (0, some SX9324_SLEEP)

/-- sx9324_set_mode.  The requested mode is a raw C enum value, so values
other than the three enumerators hit the default branch. -/
def sx9324_set_mode (b : Bus) (mode : Nat) : Nat × Bus × List BusOp :=
  if mode = SX9324_ACTIVE ∨ mode = SX9324_DOZE then
    let v1 := (sx9324_get_software_default SX9324_GNRL_CTRL_1).getD 0x0f
    let r1 := regmap_update_bits b SX9324_GNRL_CTRL_1 SX9324_PHEN v1
    if mode = SX9324_ACTIVE then
      let r2 := regmap_update_bits r1.2.1 SX9324_GNRL_CTRL_0 SX9324_DOZEPERIOD 0
      (r1.1 ||| r2.1, r2.2.1, r1.2.2 ++ r2.2.2)
    else
      let v2 := (sx9324_get_software_default SX9324_GNRL_CTRL_0).getD 0x40
      let r2 := regmap_update_bits r1.2.1 SX9324_GNRL_CTRL_0 SX9324_DOZEPERIOD v2
      (r1.1 ||| r2.1, r2.2.1, r1.2.2 ++ r2.2.2)
  else if mode = SX9324_SLEEP then
    regmap_update_bits b SX9324_GNRL_CTRL_1 SX9324_PHEN 0
  else (EINVAL, b, [])

/-! ## Reset (sx9324_reset) -/

inductive ResetSource where
  | power_up
  | software
deriving DecidableEq

/-- The readiness verification shared by both reset sources: `g1` and `g2`
are the raw levels the two successive gpiod_get_value calls on the
active-low interrupt line return (the second is only sampled after a
successful IRQ_SRC read).  `t` is the trace accumulated so far. -/
def sx9324_reset_check (b : Bus) (t : List BusOp) (g1 g2 : Nat) :
    Nat × Bus × List BusOp :=
  if g1 = 0 then
    let e := b.readErr SX9324_IRQ_SRC
    if e ≠ 0 then (e, b, t ++ [BusOp.read SX9324_IRQ_SRC])
    else if g2 ≠ 1 then (ENODEV, b, t ++ [BusOp.read SX9324_IRQ_SRC])
    else (0, b, t ++ [BusOp.read SX9324_IRQ_SRC])
  else (ENODEV, b, t)

/-- sx9324_reset: a power-up reset only waits (the delay is not modelled);
a software reset first writes the reset command 0xde, surfacing a write
failure immediately.  Then both verify readiness via the interrupt line. -/
def sx9324_reset (b : Bus) (src : ResetSource) (g1 g2 : Nat) :
    Nat × Bus × List BusOp :=
  match src with
  | ResetSource.power_up => sx9324_reset_check b [] g1 g2
  | ResetSource.software =>
    let w := regmap_write b SX9324_RESET 0xde
    if w.1 ≠ 0 then (w.1, w.2, [BusOp.write SX9324_RESET 0xde])
    else sx9324_reset_check w.2 [BusOp.write SX9324_RESET 0xde] g1 g2

/-! ## Concrete instances used by witnesses and counterexamples -/

/-- A fault-free bus whose registers all read 0. -/
def zeroBus : Bus := ⟨fun _ => 0, fun _ => 0, fun _ _ => 0⟩

/-- An all-zero, invalid phase-data entry (the kzalloc initial state). -/
def phInit : PhaseData := ⟨false, 0, 0, 0, ⟨0, 0, 0, 0, 0, 0⟩⟩

/-- Fault-free bus with only phase 0 enabled and all three measurement
MSB/LSB pairs holding (msb, lsb). -/
def measBus (msb lsb : Nat) : Bus :=
  { regs := fun a =>
      if a = SX9324_GNRL_CTRL_1 then 1
      else if a = SX9324_USE_MSB then msb
      else if a = SX9324_USE_LSB then lsb
      else if a = SX9324_AVG_MSB then msb
      else if a = SX9324_AVG_LSB then lsb
      else if a = SX9324_DIFF_MSB then msb
      else if a = SX9324_DIFF_LSB then lsb
      else 0,
    readErr := fun _ => 0,
    writeErr := fun _ _ => 0 }

/-- Fault-free bus with all four phases enabled and the given status
register values. -/
def statBus (s0 s1 s2 : Nat) : Bus :=
  { regs := fun a =>
      if a = SX9324_GNRL_CTRL_1 then 0x0f
      else if a = SX9324_STAT_0 then s0
      else if a = SX9324_STAT_1 then s1
      else if a = SX9324_STAT_2 then s2
      else 0,
    readErr := fun _ => 0,
    writeErr := fun _ _ => 0 }

/-- Bus where phase 0 is enabled, the useful pair reads (0, 5), and the
AVG_MSB read fails: sx9324_read_phdata writes proxuseful and then aborts
before marking the entry valid. -/
def cxPhBus : Bus :=
  { regs := fun a =>
      if a = SX9324_GNRL_CTRL_1 then 1
      else if a = SX9324_USE_LSB then 5
      else 0,
    readErr := fun a => if a = SX9324_AVG_MSB then ENODEV else 0,
    writeErr := fun _ _ => 0 }

/-- Bus whose writes fail exactly on SX9324_AFE_PH_0, the third
default-table entry. -/
def c9Bus : Bus :=
  ⟨fun _ => 0, fun _ => 0, fun a _ => if a = SX9324_AFE_PH_0 then ENODEV else 0⟩

/-- A rail primitive that always fails. -/
def railAlwaysFails : Bool → Nat := fun _ => ENODEV

/-- A rail primitive that always succeeds. -/
def railAlwaysWorks : Bool → Nat := fun _ => 0

/-- Bus whose writes fail exactly on SX9324_GNRL_CTRL_1: the first
set_mode field update fails while the second one succeeds. -/
def c5Bus : Bus :=
  ⟨fun _ => 0, fun _ => 0, fun a _ => if a = SX9324_GNRL_CTRL_1 then ENODEV else 0⟩

/-- Bus with phases 0 and 1 enabled whose phase-select write fails exactly
when selecting phase 1: phase 0 is acquired completely and marked valid,
then the loop aborts on phase 1, so the call returns an error while entry
0 stays valid. -/
def cx2PhBus : Bus :=
  { regs := fun a => if a = SX9324_GNRL_CTRL_1 then 3 else 0,
    readErr := fun _ => 0,
    writeErr := fun a v => if a = SX9324_PHASE_SEL ∧ v = 1 then ENODEV else 0 }

/-! ## General bitwise lemmas -/

theorem land_lor_right (x y m : Nat) : (x ||| y) &&& m = (x &&& m) ||| (y &&& m) := by
  apply Nat.eq_of_testBit_eq
  intro i
  simp [Nat.testBit_land, Nat.testBit_lor, Bool.and_or_distrib_right]

theorem lor_eq_zero_iff (x y : Nat) : x ||| y = 0 ↔ x = 0 ∧ y = 0 := by
  constructor
  · intro h
    constructor <;> apply Nat.eq_of_testBit_eq <;> intro i <;>
      have hh := congrArg (fun n => n.testBit i) h <;>
      simp [Nat.testBit_lor] at hh <;> simp [hh.1, hh.2]
  · rintro ⟨rfl, rfl⟩
    rfl

theorem lor_lt_two_pow {x y k : Nat} (hx : x < 2 ^ k) (hy : y < 2 ^ k) :
    x ||| y < 2 ^ k := by
  have h : x ||| y = (x ||| y) &&& (2 ^ k - 1) := by
    apply Nat.eq_of_testBit_eq
    intro i
    rcases Nat.lt_or_ge i k with hi | hi
    · simp [Nat.testBit_land, Nat.testBit_two_pow_sub_one, hi]
    · have h2 : (2 : Nat) ^ k ≤ 2 ^ i := Nat.pow_le_pow_right (by norm_num) hi
      simp [Nat.testBit_lor, Nat.testBit_land,
        Nat.testBit_lt_two_pow (lt_of_lt_of_le hx h2),
        Nat.testBit_lt_two_pow (lt_of_lt_of_le hy h2)]
  rw [h]
  exact Nat.and_lt_two_pow _ (Nat.sub_lt (pow_pos (by norm_num) k) (by norm_num))

theorem land_after_update (x v m k : Nat) :
    ((x &&& (255 ^^^ m)) ||| (v &&& m)) &&& k
      = (x &&& ((255 ^^^ m) &&& k)) ||| (v &&& (m &&& k)) := by
  rw [land_lor_right, Nat.and_assoc, Nat.and_assoc]

/-! ## regmap_update_bits helper lemmas -/

theorem ub_readErr (b : Bus) (a m v : Nat) :
    ((regmap_update_bits b a m v).2.1).readErr = b.readErr := by
  simp only [regmap_update_bits, regmap_write, setReg]
  split
  · rfl
  · split
    · rfl
    · split <;> rfl

theorem ub_writeErr (b : Bus) (a m v : Nat) :
    ((regmap_update_bits b a m v).2.1).writeErr = b.writeErr := by
  simp only [regmap_update_bits, regmap_write, setReg]
  split
  · rfl
  · split
    · rfl
    · split <;> rfl

theorem ub_regs_ne (b : Bus) (a m v x : Nat) (hx : x ≠ a) :
    ((regmap_update_bits b a m v).2.1).regs x = b.regs x := by
  simp only [regmap_update_bits, regmap_write, setReg]
  split
  · rfl
  · split
    · rfl
    · split
      · simp [hx]
      · rfl

theorem ub_err_ok (b : Bus) (a m v : Nat) (hr : b.readErr a = 0)
    (hw : ∀ t, b.writeErr a t = 0) : (regmap_update_bits b a m v).1 = 0 := by
  simp only [regmap_update_bits, regmap_write, setReg, hr, hw]
  split
  · rfl
  · split <;> rfl

theorem ub_regs_ok (b : Bus) (a m v : Nat) (hr : b.readErr a = 0)
    (hw : ∀ t, b.writeErr a t = 0) :
    ((regmap_update_bits b a m v).2.1).regs a
      = (b.regs a &&& (255 ^^^ m)) ||| (v &&& m) := by
  simp only [regmap_update_bits, regmap_write, setReg, hr, hw]
  split
  · rename_i h
    exact absurd rfl h
  · split
    · rename_i h
      exact h.symm
    · simp

theorem ub_regs_addr_mask (b : Bus) (a m v k : Nat) (hmk : m &&& k = 0)
    (hck : (255 ^^^ m) &&& k = k) :
    ((regmap_update_bits b a m v).2.1).regs a &&& k = b.regs a &&& k := by
  simp only [regmap_update_bits, regmap_write, setReg]
  split
  · rfl
  · split
    · rfl
    · split
      · simp [land_after_update, hmk, hck]
      · rfl

theorem ub_regs_addr_lt (b : Bus) (a m v : Nat) (hm : m < 256)
    (hc : (255 ^^^ m) < 256) (h : b.regs a < 256) :
    ((regmap_update_bits b a m v).2.1).regs a < 256 := by
  have htmp : (b.regs a &&& (255 ^^^ m)) ||| (v &&& m) < 256 := by
    have h1 : b.regs a &&& (255 ^^^ m) < 256 := lt_of_le_of_lt Nat.and_le_right hc
    have h2 : v &&& m < 256 := lt_of_le_of_lt Nat.and_le_right hm
    have := lor_lt_two_pow (show b.regs a &&& (255 ^^^ m) < 2 ^ 8 by norm_num [h1])
      (show v &&& m < 2 ^ 8 by norm_num [h2])
    norm_num at this
    exact this
  simp only [regmap_update_bits, regmap_write, setReg]
  split
  · exact h
  · split
    · exact h
    · split
      · simpa using htmp
      · exact h

theorem ub_trace_read (b : Bus) (a m v : Nat) :
    BusOp.read a ∈ (regmap_update_bits b a m v).2.2 := by
  simp only [regmap_update_bits, regmap_write, setReg]
  split
  · simp
  · split
    · simp
    · split <;> simp

/-! ## C3: get_mode -/

/-- C3: sx9324_get_mode returns Sleep when the phase-enable field is all
zero; otherwise Doze when the doze-period sub-field is nonzero and Active
when it is zero; and it reports an error exactly when one of the (at most
two) register reads it performs fails. -/
theorem c3_get_mode (b : Bus) :
    (b.readErr SX9324_GNRL_CTRL_1 ≠ 0 →
      sx9324_get_mode b = (b.readErr SX9324_GNRL_CTRL_1, none))
    ∧ (b.readErr SX9324_GNRL_CTRL_1 = 0 →
        b.regs SX9324_GNRL_CTRL_1 &&& SX9324_PHEN = 0 →
        sx9324_get_mode b = (0, some SX9324_SLEEP))
    ∧ (b.readErr SX9324_GNRL_CTRL_1 = 0 →
        b.regs SX9324_GNRL_CTRL_1 &&& SX9324_PHEN ≠ 0 →
        b.readErr SX9324_GNRL_CTRL_0 ≠ 0 →
        sx9324_get_mode b = (b.readErr SX9324_GNRL_CTRL_0, none))
    ∧ (b.readErr SX9324_GNRL_CTRL_1 = 0 →
        b.regs SX9324_GNRL_CTRL_1 &&& SX9324_PHEN ≠ 0 →
        b.readErr SX9324_GNRL_CTRL_0 = 0 →
        b.regs SX9324_GNRL_CTRL_0 &&& SX9324_DOZEPERIOD ≠ 0 →
        sx9324_get_mode b = (0, some SX9324_DOZE))
    ∧ (b.readErr SX9324_GNRL_CTRL_1 = 0 →
        b.regs SX9324_GNRL_CTRL_1 &&& SX9324_PHEN ≠ 0 →
        b.readErr SX9324_GNRL_CTRL_0 = 0 →
        b.regs SX9324_GNRL_CTRL_0 &&& SX9324_DOZEPERIOD = 0 →
        sx9324_get_mode b = (0, some SX9324_ACTIVE))
    ∧ ((sx9324_get_mode b).1 = 0 ↔
        (b.readErr SX9324_GNRL_CTRL_1 = 0 ∧
          (b.regs SX9324_GNRL_CTRL_1 &&& SX9324_PHEN = 0 ∨
            b.readErr SX9324_GNRL_CTRL_0 = 0))) := by
  refine ⟨?_, ?_, ?_, ?_, ?_, ?_⟩
  · intro h1
    simp [sx9324_get_mode, h1]
  · intro h1 h2
    simp [sx9324_get_mode, h1, h2]
  · intro h1 h2 h3
    simp [sx9324_get_mode, h1, h2, h3]
  · intro h1 h2 h3 h4
    simp [sx9324_get_mode, h1, h2, h3, h4]
  · intro h1 h2 h3 h4
    simp [sx9324_get_mode, h1, h2, h3, h4]
  · rcases eq_or_ne (b.readErr SX9324_GNRL_CTRL_1) 0 with h1 | h1
    · rcases eq_or_ne (b.regs SX9324_GNRL_CTRL_1 &&& SX9324_PHEN) 0 with h2 | h2
      · simp [sx9324_get_mode, h1, h2]
      · rcases eq_or_ne (b.readErr SX9324_GNRL_CTRL_0) 0 with h3 | h3
        · rcases eq_or_ne (b.regs SX9324_GNRL_CTRL_0 &&& SX9324_DOZEPERIOD) 0 with h4 | h4 <;>
            simp [sx9324_get_mode, h1, h2, h3, h4]
        · simp [sx9324_get_mode, h1, h2, h3]
    · simp [sx9324_get_mode, h1]

/-- Witness for C3: on a fault-free bus with no phase enabled get_mode is
(no error, Sleep). -/
theorem c3_witness : sx9324_get_mode zeroBus = (0, some SX9324_SLEEP) :=
  (c3_get_mode zeroBus).2.1 rfl (by decide)

/-! ## C4: mode round-trips -/

/-- C4: for every starting register state, when all register accesses
succeed, set_mode(Active) then get_mode returns Active, likewise for Doze
and Sleep, independently of the mode the device was in before. -/
theorem c4_mode_roundtrip (b : Bus) (hr : ∀ a, b.readErr a = 0)
    (hw : ∀ a v, b.writeErr a v = 0) :
    sx9324_get_mode ((sx9324_set_mode b SX9324_ACTIVE).2.1) = (0, some SX9324_ACTIVE)
    ∧ sx9324_get_mode ((sx9324_set_mode b SX9324_DOZE).2.1) = (0, some SX9324_DOZE)
    ∧ sx9324_get_mode ((sx9324_set_mode b SX9324_SLEEP).2.1) = (0, some SX9324_SLEEP) := by
  have hr1 : ∀ a m v x, ((regmap_update_bits b a m v).2.1).readErr x = 0 :=
    fun a m v x => (congrFun (ub_readErr b a m v) x).trans (hr x)
  have hw1 : ∀ a m v x t, ((regmap_update_bits b a m v).2.1).writeErr x t = 0 :=
    fun a m v x t => (congrFun (congrFun (ub_writeErr b a m v) x) t).trans (hw x t)
  refine ⟨?_, ?_, ?_⟩
  · have hact : (sx9324_set_mode b SX9324_ACTIVE).2.1
        = (regmap_update_bits (regmap_update_bits b SX9324_GNRL_CTRL_1 SX9324_PHEN 0x21).2.1
            SX9324_GNRL_CTRL_0 SX9324_DOZEPERIOD 0).2.1 := rfl
    rw [hact]
    set b1 := (regmap_update_bits b SX9324_GNRL_CTRL_1 SX9324_PHEN 0x21).2.1 with hb1
    set b2 := (regmap_update_bits b1 SX9324_GNRL_CTRL_0 SX9324_DOZEPERIOD 0).2.1 with hb2
    have e1 : b1.regs SX9324_GNRL_CTRL_1
        = (b.regs SX9324_GNRL_CTRL_1 &&& (255 ^^^ SX9324_PHEN)) ||| (0x21 &&& SX9324_PHEN) :=
      ub_regs_ok b SX9324_GNRL_CTRL_1 SX9324_PHEN 0x21 (hr _) (fun t => hw _ t)
    have e2 : b2.regs SX9324_GNRL_CTRL_1 = b1.regs SX9324_GNRL_CTRL_1 :=
      ub_regs_ne b1 SX9324_GNRL_CTRL_0 SX9324_DOZEPERIOD 0 SX9324_GNRL_CTRL_1 (by decide)
    have e3 : b1.regs SX9324_GNRL_CTRL_0 = b.regs SX9324_GNRL_CTRL_0 :=
      ub_regs_ne b SX9324_GNRL_CTRL_1 SX9324_PHEN 0x21 SX9324_GNRL_CTRL_0 (by decide)
    have e4 : b2.regs SX9324_GNRL_CTRL_0
        = (b1.regs SX9324_GNRL_CTRL_0 &&& (255 ^^^ SX9324_DOZEPERIOD)) ||| (0 &&& SX9324_DOZEPERIOD) :=
      ub_regs_ok b1 SX9324_GNRL_CTRL_0 SX9324_DOZEPERIOD 0 (hr1 _ _ _ _) (fun t => hw1 _ _ _ _ t)
    have hA : b2.regs SX9324_GNRL_CTRL_1 &&& SX9324_PHEN = 1 := by
      have x1 : (255 ^^^ SX9324_PHEN) &&& SX9324_PHEN = 0 := by decide
      have x2 : 0x21 &&& (SX9324_PHEN &&& SX9324_PHEN) = 1 := by decide
      rw [e2, e1, land_after_update, x1, x2, Nat.and_zero, Nat.zero_or]
    have hD : b2.regs SX9324_GNRL_CTRL_0 &&& SX9324_DOZEPERIOD = 0 := by
      have x1 : (255 ^^^ SX9324_DOZEPERIOD) &&& SX9324_DOZEPERIOD = 0 := by decide
      have x2 : 0 &&& (SX9324_DOZEPERIOD &&& SX9324_DOZEPERIOD) = 0 := by decide
      rw [e4, e3, land_after_update, x1, x2, Nat.and_zero, Nat.or_zero]
    have f1 : b2.readErr SX9324_GNRL_CTRL_1 = 0 :=
      (congrFun (ub_readErr b1 SX9324_GNRL_CTRL_0 SX9324_DOZEPERIOD 0) _).trans (hr1 _ _ _ _)
    have f2 : b2.readErr SX9324_GNRL_CTRL_0 = 0 :=
      (congrFun (ub_readErr b1 SX9324_GNRL_CTRL_0 SX9324_DOZEPERIOD 0) _).trans (hr1 _ _ _ _)
    simp [sx9324_get_mode, f1, f2, hA, hD]
  · have hdoz : (sx9324_set_mode b SX9324_DOZE).2.1
        = (regmap_update_bits (regmap_update_bits b SX9324_GNRL_CTRL_1 SX9324_PHEN 0x21).2.1
            SX9324_GNRL_CTRL_0 SX9324_DOZEPERIOD 0x45).2.1 := rfl
    rw [hdoz]
    set b1 := (regmap_update_bits b SX9324_GNRL_CTRL_1 SX9324_PHEN 0x21).2.1 with hb1
    set b2 := (regmap_update_bits b1 SX9324_GNRL_CTRL_0 SX9324_DOZEPERIOD 0x45).2.1 with hb2
    have e1 : b1.regs SX9324_GNRL_CTRL_1
        = (b.regs SX9324_GNRL_CTRL_1 &&& (255 ^^^ SX9324_PHEN)) ||| (0x21 &&& SX9324_PHEN) :=
      ub_regs_ok b SX9324_GNRL_CTRL_1 SX9324_PHEN 0x21 (hr _) (fun t => hw _ t)
    have e2 : b2.regs SX9324_GNRL_CTRL_1 = b1.regs SX9324_GNRL_CTRL_1 :=
      ub_regs_ne b1 SX9324_GNRL_CTRL_0 SX9324_DOZEPERIOD 0x45 SX9324_GNRL_CTRL_1 (by decide)
    have e3 : b1.regs SX9324_GNRL_CTRL_0 = b.regs SX9324_GNRL_CTRL_0 :=
      ub_regs_ne b SX9324_GNRL_CTRL_1 SX9324_PHEN 0x21 SX9324_GNRL_CTRL_0 (by decide)
    have e4 : b2.regs SX9324_GNRL_CTRL_0
        = (b1.regs SX9324_GNRL_CTRL_0 &&& (255 ^^^ SX9324_DOZEPERIOD)) ||| (0x45 &&& SX9324_DOZEPERIOD) :=
      ub_regs_ok b1 SX9324_GNRL_CTRL_0 SX9324_DOZEPERIOD 0x45 (hr1 _ _ _ _) (fun t => hw1 _ _ _ _ t)
    have hA : b2.regs SX9324_GNRL_CTRL_1 &&& SX9324_PHEN = 1 := by
      have x1 : (255 ^^^ SX9324_PHEN) &&& SX9324_PHEN = 0 := by decide
      have x2 : 0x21 &&& (SX9324_PHEN &&& SX9324_PHEN) = 1 := by decide
      rw [e2, e1, land_after_update, x1, x2, Nat.and_zero, Nat.zero_or]
    have hD : b2.regs SX9324_GNRL_CTRL_0 &&& SX9324_DOZEPERIOD = 0x40 := by
      have x1 : (255 ^^^ SX9324_DOZEPERIOD) &&& SX9324_DOZEPERIOD = 0 := by decide
      have x2 : 0x45 &&& (SX9324_DOZEPERIOD &&& SX9324_DOZEPERIOD) = 0x40 := by decide
      rw [e4, e3, land_after_update, x1, x2, Nat.and_zero, Nat.zero_or]
    have f1 : b2.readErr SX9324_GNRL_CTRL_1 = 0 :=
      (congrFun (ub_readErr b1 SX9324_GNRL_CTRL_0 SX9324_DOZEPERIOD 0x45) _).trans (hr1 _ _ _ _)
    have f2 : b2.readErr SX9324_GNRL_CTRL_0 = 0 :=
      (congrFun (ub_readErr b1 SX9324_GNRL_CTRL_0 SX9324_DOZEPERIOD 0x45) _).trans (hr1 _ _ _ _)
    simp [sx9324_get_mode, f1, f2, hA, hD]
  · have hslp : (sx9324_set_mode b SX9324_SLEEP).2.1
        = (regmap_update_bits b SX9324_GNRL_CTRL_1 SX9324_PHEN 0).2.1 := rfl
    rw [hslp]
    set b1 := (regmap_update_bits b SX9324_GNRL_CTRL_1 SX9324_PHEN 0).2.1 with hb1
    have e1 : b1.regs SX9324_GNRL_CTRL_1
        = (b.regs SX9324_GNRL_CTRL_1 &&& (255 ^^^ SX9324_PHEN)) ||| (0 &&& SX9324_PHEN) :=
      ub_regs_ok b SX9324_GNRL_CTRL_1 SX9324_PHEN 0 (hr _) (fun t => hw _ t)
    have hS : b1.regs SX9324_GNRL_CTRL_1 &&& SX9324_PHEN = 0 := by
      have x1 : (255 ^^^ SX9324_PHEN) &&& SX9324_PHEN = 0 := by decide
      have x2 : 0 &&& (SX9324_PHEN &&& SX9324_PHEN) = 0 := by decide
      rw [e1, land_after_update, x1, x2, Nat.and_zero, Nat.or_zero]
    have f1 : b1.readErr SX9324_GNRL_CTRL_1 = 0 := hr1 _ _ _ _
    simp [sx9324_get_mode, f1, hS]

/-- Witness for C4 at the concrete fault-free all-zero bus. -/
theorem c4_witness :
    sx9324_get_mode ((sx9324_set_mode zeroBus SX9324_ACTIVE).2.1) = (0, some SX9324_ACTIVE)
    ∧ sx9324_get_mode ((sx9324_set_mode zeroBus SX9324_DOZE).2.1) = (0, some SX9324_DOZE)
    ∧ sx9324_get_mode ((sx9324_set_mode zeroBus SX9324_SLEEP).2.1) = (0, some SX9324_SLEEP) :=
  c4_mode_roundtrip zeroBus (fun _ => rfl) (fun _ _ => rfl)


/-! ## Fin 4 literal coercion values -/

theorem fin4_val_zero : ((0 : Fin 4) : Nat) = 0 := rfl

theorem fin4_val_one : ((1 : Fin 4) : Nat) = 1 := rfl

theorem fin4_val_two : ((2 : Fin 4) : Nat) = 2 := rfl

theorem fin4_val_three : ((3 : Fin 4) : Nat) = 3 := rfl

/-! ## C6: signed 16-bit reconstruction -/

set_option maxHeartbeats 1000000 in
/-- C6: each measurement quantity reconstructed by sx9324_read_phdata from
an MSB/LSB pair is the two's-complement signed 16-bit interpretation of
(MSB <<< 8) ||| LSB: it lies in [-32768, 32768) and is congruent to that
word modulo 65536; in particular 0xFF/0xFF gives -1, 0x00/0x01 gives 1 and
0x80/0x00 gives -32768. -/
theorem c6_signed_reconstruction (msb lsb : Nat) (hm : msb < 256) (hl : lsb < 256) :
    (((sx9324_read_phdata (measBus msb lsb) (fun _ => phInit)).2.2 0).proxuseful
        = toShort ((msb <<< 8) ||| lsb)
      ∧ ((sx9324_read_phdata (measBus msb lsb) (fun _ => phInit)).2.2 0).proxavg
        = toShort ((msb <<< 8) ||| lsb)
      ∧ ((sx9324_read_phdata (measBus msb lsb) (fun _ => phInit)).2.2 0).proxdiff
        = toShort ((msb <<< 8) ||| lsb))
    ∧ (-32768 ≤ toShort ((msb <<< 8) ||| lsb)
      ∧ toShort ((msb <<< 8) ||| lsb) < 32768
      ∧ toShort ((msb <<< 8) ||| lsb) % 65536 = (((msb <<< 8) ||| lsb : Nat) : Int) % 65536)
    ∧ (((sx9324_read_phdata (measBus 255 255) (fun _ => phInit)).2.2 0).proxuseful = -1
      ∧ ((sx9324_read_phdata (measBus 0 1) (fun _ => phInit)).2.2 0).proxuseful = 1
      ∧ ((sx9324_read_phdata (measBus 128 0) (fun _ => phInit)).2.2 0).proxdiff = -32768) := by
  have hword : (msb <<< 8) ||| lsb < 65536 := by
    have h16 : (2 : Nat) ^ 16 = 65536 := by norm_num
    have h1 : msb <<< 8 < 2 ^ 16 := by
      rw [Nat.shiftLeft_eq, h16]
      have h8 : (2 : Nat) ^ 8 = 256 := by norm_num
      rw [h8]
      omega
    have h2 : lsb < 2 ^ 16 := by omega
    have h3 := lor_lt_two_pow h1 h2
    omega
  refine ⟨⟨?_, ?_, ?_⟩, ?_, by decide⟩
  · simp [sx9324_read_phdata, phdataLoop, phaseStep, phaseStepUseful, phaseStepAvg,
      phaseStepDiff, updAt, regmap_write, setReg, measBus, phInit,
      SX9324_PHEN, SX9324_GNRL_CTRL_1, SX9324_PHASE_SEL, SX9324_USE_MSB, SX9324_USE_LSB,
      SX9324_AVG_MSB, SX9324_AVG_LSB, SX9324_DIFF_MSB, SX9324_DIFF_LSB,
      SX9324_STAT_0, SX9324_STAT_1, SX9324_STAT_2,
      fin4_val_zero, fin4_val_one, fin4_val_two, fin4_val_three]
  · simp [sx9324_read_phdata, phdataLoop, phaseStep, phaseStepUseful, phaseStepAvg,
      phaseStepDiff, updAt, regmap_write, setReg, measBus, phInit,
      SX9324_PHEN, SX9324_GNRL_CTRL_1, SX9324_PHASE_SEL, SX9324_USE_MSB, SX9324_USE_LSB,
      SX9324_AVG_MSB, SX9324_AVG_LSB, SX9324_DIFF_MSB, SX9324_DIFF_LSB,
      SX9324_STAT_0, SX9324_STAT_1, SX9324_STAT_2,
      fin4_val_zero, fin4_val_one, fin4_val_two, fin4_val_three]
  · simp [sx9324_read_phdata, phdataLoop, phaseStep, phaseStepUseful, phaseStepAvg,
      phaseStepDiff, updAt, regmap_write, setReg, measBus, phInit,
      SX9324_PHEN, SX9324_GNRL_CTRL_1, SX9324_PHASE_SEL, SX9324_USE_MSB, SX9324_USE_LSB,
      SX9324_AVG_MSB, SX9324_AVG_LSB, SX9324_DIFF_MSB, SX9324_DIFF_LSB,
      SX9324_STAT_0, SX9324_STAT_1, SX9324_STAT_2,
      fin4_val_zero, fin4_val_one, fin4_val_two, fin4_val_three]
  · unfold toShort
    rw [Nat.mod_eq_of_lt hword]
    split <;> rename_i h <;> exact ⟨by omega, by omega, by omega⟩

/-- Witness for C6 at the concrete pair (0xFF, 0xFF). -/
theorem c6_witness :
    ((sx9324_read_phdata (measBus 255 255) (fun _ => phInit)).2.2 0).proxuseful
      = toShort ((255 <<< 8) ||| 255)
    ∧ toShort ((255 <<< 8) ||| 255) = -1 :=
  ⟨(c6_signed_reconstruction 255 255 (by decide) (by decide)).1.1, by decide⟩

/-! ## C7: status decoding -/

set_option maxHeartbeats 4000000 in
/-- C7: for every phase i and all status-register values, the flags
decoded by sx9324_read_phdata are: steady = bit i+4 of STAT_0, prox =
bit i of STAT_0, table = bit i+4 of STAT_1, body = bit i of STAT_1, fail =
bit i+4 of STAT_2, comp = bit i of STAT_2; in particular
status0 = 0b00010001 with status1 = status2 = 0 gives phase 0
prox = steady = 1 while phases 1..3 have prox = 0. -/
theorem c7_status_decoding (s0 s1 s2 : Nat) (i : Fin 4) :
    (((sx9324_read_phdata (statBus s0 s1 s2) (fun _ => phInit)).2.2 i).stat.steady
        = (s0 >>> ((i : Nat) + 4)) &&& 1
      ∧ (((sx9324_read_phdata (statBus s0 s1 s2) (fun _ => phInit)).2.2 i).stat.prox
        = (s0 >>> (i : Nat)) &&& 1)
      ∧ (((sx9324_read_phdata (statBus s0 s1 s2) (fun _ => phInit)).2.2 i).stat.table
        = (s1 >>> ((i : Nat) + 4)) &&& 1)
      ∧ (((sx9324_read_phdata (statBus s0 s1 s2) (fun _ => phInit)).2.2 i).stat.body
        = (s1 >>> (i : Nat)) &&& 1)
      ∧ (((sx9324_read_phdata (statBus s0 s1 s2) (fun _ => phInit)).2.2 i).stat.fail
        = (s2 >>> ((i : Nat) + 4)) &&& 1)
      ∧ (((sx9324_read_phdata (statBus s0 s1 s2) (fun _ => phInit)).2.2 i).stat.comp
        = (s2 >>> (i : Nat)) &&& 1))
    ∧ (((sx9324_read_phdata (statBus 0x11 0 0) (fun _ => phInit)).2.2 0).stat.prox = 1
      ∧ ((sx9324_read_phdata (statBus 0x11 0 0) (fun _ => phInit)).2.2 0).stat.steady = 1
      ∧ ((sx9324_read_phdata (statBus 0x11 0 0) (fun _ => phInit)).2.2 1).stat.prox = 0
      ∧ ((sx9324_read_phdata (statBus 0x11 0 0) (fun _ => phInit)).2.2 2).stat.prox = 0
      ∧ ((sx9324_read_phdata (statBus 0x11 0 0) (fun _ => phInit)).2.2 3).stat.prox = 0) := by
  constructor
  · fin_cases i <;>
      simp [sx9324_read_phdata, phdataLoop, phaseStep, phaseStepUseful, phaseStepAvg,
        phaseStepDiff, updAt, regmap_write, setReg, statBus, phInit, decodeStat, SX9324_PHEN, SX9324_GNRL_CTRL_1, SX9324_PHASE_SEL,
        SX9324_USE_MSB, SX9324_USE_LSB, SX9324_AVG_MSB, SX9324_AVG_LSB, SX9324_DIFF_MSB,
        SX9324_DIFF_LSB, SX9324_STAT_0, SX9324_STAT_1, SX9324_STAT_2,
        fin4_val_zero, fin4_val_one, fin4_val_two, fin4_val_three]
  · exact ⟨by decide, by decide, by decide, by decide, by decide⟩

/-! ## C5: set_mode error combination -/

/-- C5: for target Active or Doze, sx9324_set_mode performs both field
updates (the second update's trace, which always contains the
GNRL_CTRL_0 read, is appended even when the first update fails), combines
the two error codes with bitwise OR, and fails iff at least one of the two
updates failed; any requested mode other than the three enumerators
returns -EINVAL and touches no register. -/
theorem c5_set_mode_errors (b : Bus) (mode : Nat) :
    (mode = SX9324_ACTIVE ∨ mode = SX9324_DOZE →
      sx9324_set_mode b mode
        = ((regmap_update_bits b SX9324_GNRL_CTRL_1 SX9324_PHEN 0x21).1
            ||| (regmap_update_bits
                  (regmap_update_bits b SX9324_GNRL_CTRL_1 SX9324_PHEN 0x21).2.1
                  SX9324_GNRL_CTRL_0 SX9324_DOZEPERIOD
                  (if mode = SX9324_ACTIVE then 0 else 0x45)).1,
           (regmap_update_bits
             (regmap_update_bits b SX9324_GNRL_CTRL_1 SX9324_PHEN 0x21).2.1
             SX9324_GNRL_CTRL_0 SX9324_DOZEPERIOD
             (if mode = SX9324_ACTIVE then 0 else 0x45)).2.1,
           (regmap_update_bits b SX9324_GNRL_CTRL_1 SX9324_PHEN 0x21).2.2
             ++ (regmap_update_bits
                  (regmap_update_bits b SX9324_GNRL_CTRL_1 SX9324_PHEN 0x21).2.1
                  SX9324_GNRL_CTRL_0 SX9324_DOZEPERIOD
                  (if mode = SX9324_ACTIVE then 0 else 0x45)).2.2))
    ∧ (mode = SX9324_ACTIVE ∨ mode = SX9324_DOZE →
        ((sx9324_set_mode b mode).1 = 0 ↔
          (regmap_update_bits b SX9324_GNRL_CTRL_1 SX9324_PHEN 0x21).1 = 0
          ∧ (regmap_update_bits
              (regmap_update_bits b SX9324_GNRL_CTRL_1 SX9324_PHEN 0x21).2.1
              SX9324_GNRL_CTRL_0 SX9324_DOZEPERIOD
              (if mode = SX9324_ACTIVE then 0 else 0x45)).1 = 0))
    ∧ (mode = SX9324_ACTIVE ∨ mode = SX9324_DOZE →
        BusOp.read SX9324_GNRL_CTRL_0 ∈ (sx9324_set_mode b mode).2.2)
    ∧ (mode ≠ SX9324_ACTIVE → mode ≠ SX9324_DOZE → mode ≠ SX9324_SLEEP →
        sx9324_set_mode b mode = (EINVAL, b, [])) := by
  have heqA : sx9324_set_mode b SX9324_ACTIVE
      = ((regmap_update_bits b SX9324_GNRL_CTRL_1 SX9324_PHEN 0x21).1
          ||| (regmap_update_bits
                (regmap_update_bits b SX9324_GNRL_CTRL_1 SX9324_PHEN 0x21).2.1
                SX9324_GNRL_CTRL_0 SX9324_DOZEPERIOD 0).1,
         (regmap_update_bits
           (regmap_update_bits b SX9324_GNRL_CTRL_1 SX9324_PHEN 0x21).2.1
           SX9324_GNRL_CTRL_0 SX9324_DOZEPERIOD 0).2.1,
         (regmap_update_bits b SX9324_GNRL_CTRL_1 SX9324_PHEN 0x21).2.2
           ++ (regmap_update_bits
                (regmap_update_bits b SX9324_GNRL_CTRL_1 SX9324_PHEN 0x21).2.1
                SX9324_GNRL_CTRL_0 SX9324_DOZEPERIOD 0).2.2) := rfl
  have heqD : sx9324_set_mode b SX9324_DOZE
      = ((regmap_update_bits b SX9324_GNRL_CTRL_1 SX9324_PHEN 0x21).1
          ||| (regmap_update_bits
                (regmap_update_bits b SX9324_GNRL_CTRL_1 SX9324_PHEN 0x21).2.1
                SX9324_GNRL_CTRL_0 SX9324_DOZEPERIOD 0x45).1,
         (regmap_update_bits
           (regmap_update_bits b SX9324_GNRL_CTRL_1 SX9324_PHEN 0x21).2.1
           SX9324_GNRL_CTRL_0 SX9324_DOZEPERIOD 0x45).2.1,
         (regmap_update_bits b SX9324_GNRL_CTRL_1 SX9324_PHEN 0x21).2.2
           ++ (regmap_update_bits
                (regmap_update_bits b SX9324_GNRL_CTRL_1 SX9324_PHEN 0x21).2.1
                SX9324_GNRL_CTRL_0 SX9324_DOZEPERIOD 0x45).2.2) := rfl
  refine ⟨?_, ?_, ?_, ?_⟩
  · rintro (rfl | rfl)
    · simpa using heqA
    · simpa using heqD
  · rintro (rfl | rfl)
    · rw [heqA]
      simpa using lor_eq_zero_iff _ _
    · rw [heqD]
      simpa using lor_eq_zero_iff _ _
  · rintro (rfl | rfl)
    · rw [heqA]
      exact List.mem_append_right _ (ub_trace_read _ _ _ _)
    · rw [heqD]
      exact List.mem_append_right _ (ub_trace_read _ _ _ _)
  · intro h0 h1 h2
    simp [sx9324_set_mode, h0, h1, h2]

/-- Witness for C5: with a bus whose GNRL_CTRL_1 write fails, set_mode
(Active) reports the failure yet still accesses GNRL_CTRL_0. -/
theorem c5_witness :
    (sx9324_set_mode c5Bus SX9324_ACTIVE).1 = ENODEV
    ∧ BusOp.read SX9324_GNRL_CTRL_0 ∈ (sx9324_set_mode c5Bus SX9324_ACTIVE).2.2 := by
  have h := c5_set_mode_errors c5Bus SX9324_ACTIVE
  refine ⟨?_, h.2.2.1 (Or.inl rfl)⟩
  rw [h.1 (Or.inl rfl)]
  decide

/-! ## C10: set_mode frame -/

/-- C10: sx9324_set_mode changes nothing outside the two mode-control
fields (8-bit registers assumed): every register other than GNRL_CTRL_0
and GNRL_CTRL_1 is untouched, bits outside the phase-enable field of
GNRL_CTRL_1 (mask 0xf0) and bits outside the doze-period field of
GNRL_CTRL_0 (mask 0x9f) are preserved, the two registers stay 8-bit, and
set_mode(Sleep) leaves GNRL_CTRL_0 completely untouched. -/
theorem c10_set_mode_frame (b : Bus) (mode : Nat) (h8 : ∀ a, b.regs a < 256) :
    (∀ a, a ≠ SX9324_GNRL_CTRL_0 → a ≠ SX9324_GNRL_CTRL_1 →
      ((sx9324_set_mode b mode).2.1).regs a = b.regs a)
    ∧ ((sx9324_set_mode b mode).2.1).regs SX9324_GNRL_CTRL_1 &&& 0xf0
        = b.regs SX9324_GNRL_CTRL_1 &&& 0xf0
    ∧ ((sx9324_set_mode b mode).2.1).regs SX9324_GNRL_CTRL_0 &&& 0x9f
        = b.regs SX9324_GNRL_CTRL_0 &&& 0x9f
    ∧ ((sx9324_set_mode b mode).2.1).regs SX9324_GNRL_CTRL_1 < 256
    ∧ ((sx9324_set_mode b mode).2.1).regs SX9324_GNRL_CTRL_0 < 256
    ∧ (mode = SX9324_SLEEP →
        ((sx9324_set_mode b mode).2.1).regs SX9324_GNRL_CTRL_0
          = b.regs SX9324_GNRL_CTRL_0) := by
  by_cases hm : mode = SX9324_ACTIVE ∨ mode = SX9324_DOZE
  · have heq : (sx9324_set_mode b mode).2.1
        = (regmap_update_bits
            (regmap_update_bits b SX9324_GNRL_CTRL_1 SX9324_PHEN 0x21).2.1
            SX9324_GNRL_CTRL_0 SX9324_DOZEPERIOD
            (if mode = SX9324_ACTIVE then 0 else 0x45)).2.1 := by
      rcases hm with rfl | rfl <;> rfl
    rw [heq]
    refine ⟨?_, ?_, ?_, ?_, ?_, ?_⟩
    · intro a ha0 ha1
      rw [ub_regs_ne _ _ _ _ a ha0, ub_regs_ne _ _ _ _ a ha1]
    · rw [ub_regs_ne _ _ _ _ SX9324_GNRL_CTRL_1 (by decide)]
      exact ub_regs_addr_mask b SX9324_GNRL_CTRL_1 SX9324_PHEN 0x21 0xf0
        (by decide) (by decide)
    · rw [show (regmap_update_bits
            (regmap_update_bits b SX9324_GNRL_CTRL_1 SX9324_PHEN 0x21).2.1
            SX9324_GNRL_CTRL_0 SX9324_DOZEPERIOD
            (if mode = SX9324_ACTIVE then 0 else 0x45)).2.1.regs SX9324_GNRL_CTRL_0 &&& 0x9f
          = (regmap_update_bits b SX9324_GNRL_CTRL_1 SX9324_PHEN 0x21).2.1.regs
              SX9324_GNRL_CTRL_0 &&& 0x9f from
          ub_regs_addr_mask _ SX9324_GNRL_CTRL_0 SX9324_DOZEPERIOD _ 0x9f
            (by decide) (by decide)]
      rw [ub_regs_ne _ _ _ _ SX9324_GNRL_CTRL_0 (by decide)]
    · rw [ub_regs_ne _ _ _ _ SX9324_GNRL_CTRL_1 (by decide)]
      exact ub_regs_addr_lt b SX9324_GNRL_CTRL_1 SX9324_PHEN 0x21 (by decide) (by decide)
        (h8 _)
    · refine ub_regs_addr_lt _ SX9324_GNRL_CTRL_0 SX9324_DOZEPERIOD _ (by decide)
        (by decide) ?_
      rw [ub_regs_ne _ _ _ _ SX9324_GNRL_CTRL_0 (by decide)]
      exact h8 _
    · intro hs
      rcases hm with rfl | rfl <;> exact absurd hs (by decide)
  · by_cases hs : mode = SX9324_SLEEP
    · subst hs
      have heq : (sx9324_set_mode b SX9324_SLEEP).2.1
          = (regmap_update_bits b SX9324_GNRL_CTRL_1 SX9324_PHEN 0).2.1 := rfl
      rw [heq]
      refine ⟨?_, ?_, ?_, ?_, ?_, ?_⟩
      · intro a ha0 ha1
        exact ub_regs_ne _ _ _ _ a ha1
      · exact ub_regs_addr_mask b SX9324_GNRL_CTRL_1 SX9324_PHEN 0 0xf0
          (by decide) (by decide)
      · rw [ub_regs_ne _ _ _ _ SX9324_GNRL_CTRL_0 (by decide)]
      · exact ub_regs_addr_lt b SX9324_GNRL_CTRL_1 SX9324_PHEN 0 (by decide) (by decide)
          (h8 _)
      · rw [ub_regs_ne _ _ _ _ SX9324_GNRL_CTRL_0 (by decide)]
        exact h8 _
      · intro _
        exact ub_regs_ne _ _ _ _ SX9324_GNRL_CTRL_0 (by decide)
    · have h0 : mode ≠ SX9324_ACTIVE := fun h => hm (Or.inl h)
      have h1 : mode ≠ SX9324_DOZE := fun h => hm (Or.inr h)
      have heq : (sx9324_set_mode b mode).2.1 = b := by
        simp [sx9324_set_mode, h0, h1, hs]
      rw [heq]
      exact ⟨fun a _ _ => rfl, rfl, rfl, h8 _, h8 _, fun h => absurd h hs⟩

/-- Witness for C10 at the all-zero fault-free bus with mode Sleep. -/
theorem c10_witness :
    ((sx9324_set_mode zeroBus SX9324_SLEEP).2.1).regs SX9324_IRQ_MSK
      = zeroBus.regs SX9324_IRQ_MSK
    ∧ ((sx9324_set_mode zeroBus SX9324_SLEEP).2.1).regs SX9324_GNRL_CTRL_0
      = zeroBus.regs SX9324_GNRL_CTRL_0 := by
  have h := c10_set_mode_frame zeroBus SX9324_SLEEP (fun _ => (by decide : (0 : Nat) < 256))
  exact ⟨h.1 SX9324_IRQ_MSK (by decide) (by decide), h.2.2.2.2.2 rfl⟩

/-! ## C2: reset readiness -/

/-- C2 counterexample: a power-up reset call succeeds with the interrupt
line reading 0 before the status-clearing read and 1 after it — two
different levels — so the claim that the call succeeds only when the line
reads the inactive level both before and after the status read (and that
an asserted line before the read forces NotReady) is false for either
assignment of "asserted" to a logic level. -/
theorem c2_counterexample :
    (sx9324_reset zeroBus ResetSource.power_up 0 1).1 = 0 ∧ (0 : Nat) ≠ 1 := by
  exact ⟨by decide, by decide⟩

/-- C2 (amended): the readiness check requires the line low (0, the
latched reset interrupt asserted) before the IRQ_SRC read and high (1,
deasserted) after it: if the line reads nonzero before the status read the
call returns -ENODEV with no further register access; a failed status read
is returned as is; a line not reading 1 afterwards gives -ENODEV; the call
succeeds exactly when the line reads 0 before, the status read succeeds,
and the line reads 1 after (for software reset, additionally the reset
command write must succeed; its failure is returned before any status
read). -/
theorem c2_reset_readiness (b : Bus) (g1 g2 : Nat) :
    ((sx9324_reset b ResetSource.power_up g1 g2).1 = 0 ↔
      (g1 = 0 ∧ b.readErr SX9324_IRQ_SRC = 0 ∧ g2 = 1))
    ∧ (g1 ≠ 0 → sx9324_reset b ResetSource.power_up g1 g2 = (ENODEV, b, []))
    ∧ (g1 = 0 → b.readErr SX9324_IRQ_SRC ≠ 0 →
        (sx9324_reset b ResetSource.power_up g1 g2).1 = b.readErr SX9324_IRQ_SRC)
    ∧ (g1 = 0 → b.readErr SX9324_IRQ_SRC = 0 → g2 ≠ 1 →
        (sx9324_reset b ResetSource.power_up g1 g2).1 = ENODEV)
    ∧ (b.writeErr SX9324_RESET 0xde ≠ 0 →
        sx9324_reset b ResetSource.software g1 g2
          = (b.writeErr SX9324_RESET 0xde, b, [BusOp.write SX9324_RESET 0xde]))
    ∧ (b.writeErr SX9324_RESET 0xde = 0 → g1 ≠ 0 →
        sx9324_reset b ResetSource.software g1 g2
          = (ENODEV, setReg b SX9324_RESET 0xde, [BusOp.write SX9324_RESET 0xde]))
    ∧ (b.writeErr SX9324_RESET 0xde = 0 →
        ((sx9324_reset b ResetSource.software g1 g2).1 = 0 ↔
          (g1 = 0 ∧ b.readErr SX9324_IRQ_SRC = 0 ∧ g2 = 1))) := by
  have hE : ENODEV ≠ 0 := by decide
  refine ⟨?_, ?_, ?_, ?_, ?_, ?_, ?_⟩
  · by_cases h1 : g1 = 0
    · by_cases h2 : b.readErr SX9324_IRQ_SRC = 0
      · by_cases h3 : g2 = 1
        · simp [sx9324_reset, sx9324_reset_check, h1, h2, h3]
        · simp [sx9324_reset, sx9324_reset_check, h1, h2, h3, hE]
      · simp [sx9324_reset, sx9324_reset_check, h1, h2]
    · simp [sx9324_reset, sx9324_reset_check, h1, hE]
  · intro h1
    simp [sx9324_reset, sx9324_reset_check, h1]
  · intro h1 h2
    simp [sx9324_reset, sx9324_reset_check, h1, h2]
  · intro h1 h2 h3
    simp [sx9324_reset, sx9324_reset_check, h1, h2, h3]
  · intro hw
    simp [sx9324_reset, regmap_write, hw]
  · intro hw h1
    simp [sx9324_reset, sx9324_reset_check, regmap_write, hw, h1]
  · intro hw
    by_cases h1 : g1 = 0
    · by_cases h2 : b.readErr SX9324_IRQ_SRC = 0
      · by_cases h3 : g2 = 1
        · simp [sx9324_reset, sx9324_reset_check, regmap_write, setReg, hw, h1, h2, h3]
        · simp [sx9324_reset, sx9324_reset_check, regmap_write, setReg, hw, h1, h2, h3, hE]
      · simp [sx9324_reset, sx9324_reset_check, regmap_write, setReg, hw, h1, h2]
    · simp [sx9324_reset, sx9324_reset_check, regmap_write, setReg, hw, h1, hE]

/-- Witness for C2 (amended): a deasserted-before-the-read line makes a
power-up reset fail with -ENODEV and no register access at all. -/
theorem c2_witness :
    sx9324_reset zeroBus ResetSource.power_up 1 1 = (ENODEV, zeroBus, []) :=
  (c2_reset_readiness zeroBus 1 1).2.1 (by decide)

/-! ## C8: rail enabling -/

/-- C8 counterexample: when the underlying rail primitive fails, the
shadow state is (correctly) left unchanged, so calling the enable twice
with the same request issues two rail transactions — more than the one the
claim allows. -/
theorem c8_counterexample :
    ¬((sx9324_enable_pullup railAlwaysFails ⟨false, false⟩ true).2.2
      + (sx9324_enable_pullup railAlwaysFails
          (sx9324_enable_pullup railAlwaysFails ⟨false, false⟩ true).2.1 true).2.2 ≤ 1) := by
  decide

/-- C8 (amended): each rail enable is a successful no-op when the shadow
state already matches the request; otherwise it invokes the rail primitive
exactly once and updates the shadow only on success; consequently, when
the primitive succeeds, two consecutive calls with the same request issue
at most one rail transaction (after a failed primitive call the shadow is
unchanged, so a retry issues another transaction). -/
theorem c8_enable_rail (pErr vErr : Bool → Nat) (d : RailCtl) (en : Bool) :
    (d.pullup_enabled = en → sx9324_enable_pullup pErr d en = (0, d, 0))
    ∧ (d.pullup_enabled ≠ en → (sx9324_enable_pullup pErr d en).2.2 = 1)
    ∧ (d.pullup_enabled ≠ en → pErr en = 0 →
        sx9324_enable_pullup pErr d en = (0, { d with pullup_enabled := en }, 1))
    ∧ (d.pullup_enabled ≠ en → pErr en ≠ 0 →
        sx9324_enable_pullup pErr d en = (pErr en, d, 1))
    ∧ (pErr en = 0 →
        (sx9324_enable_pullup pErr d en).2.2
          + (sx9324_enable_pullup pErr (sx9324_enable_pullup pErr d en).2.1 en).2.2 ≤ 1)
    ∧ (d.vdd_enabled = en → sx9324_enable_vdd vErr d en = (0, d, 0))
    ∧ (d.vdd_enabled ≠ en → (sx9324_enable_vdd vErr d en).2.2 = 1)
    ∧ (d.vdd_enabled ≠ en → vErr en = 0 →
        sx9324_enable_vdd vErr d en = (0, { d with vdd_enabled := en }, 1))
    ∧ (d.vdd_enabled ≠ en → vErr en ≠ 0 →
        sx9324_enable_vdd vErr d en = (vErr en, d, 1))
    ∧ (vErr en = 0 →
        (sx9324_enable_vdd vErr d en).2.2
          + (sx9324_enable_vdd vErr (sx9324_enable_vdd vErr d en).2.1 en).2.2 ≤ 1) := by
  refine ⟨?_, ?_, ?_, ?_, ?_, ?_, ?_, ?_, ?_, ?_⟩
  · intro h
    simp [sx9324_enable_pullup, h]
  · intro h
    by_cases he : pErr en = 0 <;> simp [sx9324_enable_pullup, h, he]
  · intro h he
    simp [sx9324_enable_pullup, h, he]
  · intro h he
    simp [sx9324_enable_pullup, h, he]
  · intro he
    by_cases h : d.pullup_enabled = en
    · simp [sx9324_enable_pullup, h]
    · simp [sx9324_enable_pullup, h, he]
  · intro h
    simp [sx9324_enable_vdd, h]
  · intro h
    by_cases he : vErr en = 0 <;> simp [sx9324_enable_vdd, h, he]
  · intro h he
    simp [sx9324_enable_vdd, h, he]
  · intro h he
    simp [sx9324_enable_vdd, h, he]
  · intro he
    by_cases h : d.vdd_enabled = en
    · simp [sx9324_enable_vdd, h]
    · simp [sx9324_enable_vdd, h, he]

/-- Witness for C8 (amended): a successful enable from the disabled state
performs exactly one transaction and updates the shadow state. -/
theorem c8_witness :
    sx9324_enable_pullup railAlwaysWorks ⟨false, false⟩ true
      = (0, ⟨true, false⟩, 1) := by
  have h := c8_enable_rail railAlwaysWorks railAlwaysWorks ⟨false, false⟩ true
  exact h.2.2.1 (by decide) rfl

/-! ## C9: default table application -/

theorem applyDefaults_all_ok (l : List (Nat × Nat)) :
    ∀ b : Bus, (∀ rv ∈ l, b.writeErr rv.1 rv.2 = 0) →
      applyDefaults b l
        = (0, writeAll b l, l.map (fun rv => BusOp.write rv.1 rv.2), none) := by
  induction l with
  | nil => intro b _; rfl
  | cons rv rest ih =>
    intro b h
    have hw : b.writeErr rv.1 rv.2 = 0 := h rv (List.mem_cons_self rv rest)
    have hrest : ∀ rv2 ∈ rest, (setReg b rv.1 rv.2).writeErr rv2.1 rv2.2 = 0 :=
      fun rv2 hm => h rv2 (List.mem_cons_of_mem rv hm)
    simp [applyDefaults, regmap_write, hw, ih (setReg b rv.1 rv.2) hrest, writeAll]

theorem applyDefaults_split (pre : List (Nat × Nat)) :
    ∀ (b : Bus) (r v : Nat) (post : List (Nat × Nat)),
      (∀ rv ∈ pre, b.writeErr rv.1 rv.2 = 0) → b.writeErr r v ≠ 0 →
      applyDefaults b (pre ++ (r, v) :: post)
        = (b.writeErr r v, writeAll b pre,
           pre.map (fun rv => BusOp.write rv.1 rv.2) ++ [BusOp.write r v], some r) := by
  induction pre with
  | nil =>
    intro b r v post _ h2
    simp [applyDefaults, regmap_write, h2, writeAll]
  | cons rv rest ih =>
    intro b r v post h1 h2
    have hw : b.writeErr rv.1 rv.2 = 0 := h1 rv (List.mem_cons_self rv rest)
    have hrest : ∀ rv2 ∈ rest, (setReg b rv.1 rv.2).writeErr rv2.1 rv2.2 = 0 :=
      fun rv2 hm => h1 rv2 (List.mem_cons_of_mem rv hm)
    have h2s : (setReg b rv.1 rv.2).writeErr r v ≠ 0 := h2
    simp [applyDefaults, regmap_write, hw, ih (setReg b rv.1 rv.2) r v post hrest h2s,
      writeAll]
    rfl

/-- C9: sx9324_reset_software_default writes the compiled-in default
entries strictly in table order; when every write succeeds it succeeds
having written them all; on the first failing entry it stops (the trace
ends with the failing write and later entries are not attempted), returns
that write's error code, logs the failing address, and leaves the entries
written before the failure in place with no rollback. -/
theorem c9_apply_defaults (b : Bus) :
    ((∀ rv ∈ sx9324_reg_defaults, b.writeErr rv.1 rv.2 = 0) →
      sx9324_reset_software_default b
        = (0, writeAll b sx9324_reg_defaults,
           sx9324_reg_defaults.map (fun rv => BusOp.write rv.1 rv.2), none))
    ∧ (∀ pre r v post, sx9324_reg_defaults = pre ++ (r, v) :: post →
        (∀ rv ∈ pre, b.writeErr rv.1 rv.2 = 0) → b.writeErr r v ≠ 0 →
        sx9324_reset_software_default b
          = (b.writeErr r v, writeAll b pre,
             pre.map (fun rv => BusOp.write rv.1 rv.2) ++ [BusOp.write r v], some r)) := by
  constructor
  · intro h
    exact applyDefaults_all_ok sx9324_reg_defaults b h
  · intro pre r v post heq h1 h2
    unfold sx9324_reset_software_default
    rw [heq]
    exact applyDefaults_split pre b r v post h1 h2

/-- Witness for C9: with the write failing exactly on the third table
entry (SX9324_AFE_PH_0), the first two entries are written, the error and
the failing address are reported, and the fourth entry is untouched. -/
theorem c9_witness :
    (sx9324_reset_software_default c9Bus).1 = ENODEV
    ∧ (sx9324_reset_software_default c9Bus).2.2.2 = some SX9324_AFE_PH_0
    ∧ ((sx9324_reset_software_default c9Bus).2.1).regs SX9324_IRQ_MSK = 0x60
    ∧ ((sx9324_reset_software_default c9Bus).2.1).regs SX9324_GNRL_CTRL_0 = 0x45
    ∧ ((sx9324_reset_software_default c9Bus).2.1).regs SX9324_GNRL_CTRL_1 = 0 := by
  have h := (c9_apply_defaults c9Bus).2
    [(SX9324_IRQ_MSK, SX9324_CLOSEANYIRQEN ||| SX9324_FARANYIRQEN),
     (SX9324_GNRL_CTRL_0, 0x45)]
    SX9324_AFE_PH_0 0x29 [(SX9324_GNRL_CTRL_1, 0x21)] (by decide) (by decide) (by decide)
  refine ⟨?_, ?_, ?_, ?_, ?_⟩ <;> rw [h] <;> decide

/-! ## C1: snapshot validity invariant -/

theorem updAt_ne (ph : Fin 4 → PhaseData) (i j : Fin 4) (pd : PhaseData) (hij : j ≠ i) :
    updAt ph i pd j = ph j := if_neg hij

theorem phaseStepDiff_ne (b1 : Bus) (s0 s1 s2 : Nat) (ph : Fin 4 → PhaseData)
    (i j : Fin 4) (hij : j ≠ i) : ((phaseStepDiff b1 s0 s1 s2 ph i).2.2) j = ph j := by
  simp only [phaseStepDiff]
  split
  · rfl
  · simp [updAt, hij]

theorem phaseStepAvg_ne (b1 : Bus) (s0 s1 s2 : Nat) (ph : Fin 4 → PhaseData)
    (i j : Fin 4) (hij : j ≠ i) : ((phaseStepAvg b1 s0 s1 s2 ph i).2.2) j = ph j := by
  simp only [phaseStepAvg]
  split
  · rfl
  · rw [phaseStepDiff_ne _ _ _ _ _ i j hij]
    exact updAt_ne ph i j _ hij

theorem phaseStepUseful_ne (b1 : Bus) (s0 s1 s2 : Nat) (ph : Fin 4 → PhaseData)
    (i j : Fin 4) (hij : j ≠ i) : ((phaseStepUseful b1 s0 s1 s2 ph i).2.2) j = ph j := by
  simp only [phaseStepUseful]
  split
  · rfl
  · rw [phaseStepAvg_ne _ _ _ _ _ i j hij]
    exact updAt_ne ph i j _ hij

theorem phaseStep_ne (b : Bus) (s0 s1 s2 : Nat) (ph : Fin 4 → PhaseData) (i j : Fin 4)
    (hij : j ≠ i) : ((phaseStep b s0 s1 s2 ph i).2.2) j = ph j := by
  simp only [phaseStep]
  split
  · rfl
  · exact phaseStepUseful_ne _ _ _ _ _ i j hij

theorem phaseStep_valid (b : Bus) (s0 s1 s2 : Nat) (ph : Fin 4 → PhaseData) (i j : Fin 4) :
    (((phaseStep b s0 s1 s2 ph i).2.2) j).is_valid = true →
      (ph j).is_valid = true ∨ j = i := by
  by_cases hij : j = i
  · intro _
    exact Or.inr hij
  · intro h
    rw [phaseStep_ne b s0 s1 s2 ph i j hij] at h
    exact Or.inl h

theorem phaseStepDiff_bus (b1 : Bus) (s0 s1 s2 : Nat) (ph : Fin 4 → PhaseData)
    (i : Fin 4) : (phaseStepDiff b1 s0 s1 s2 ph i).2.1 = b1 := by
  simp only [phaseStepDiff]
  split <;> rfl

theorem phaseStepAvg_bus (b1 : Bus) (s0 s1 s2 : Nat) (ph : Fin 4 → PhaseData)
    (i : Fin 4) : (phaseStepAvg b1 s0 s1 s2 ph i).2.1 = b1 := by
  simp only [phaseStepAvg]
  split
  · rfl
  · exact phaseStepDiff_bus _ _ _ _ _ i

theorem phaseStepUseful_bus (b1 : Bus) (s0 s1 s2 : Nat) (ph : Fin 4 → PhaseData)
    (i : Fin 4) : (phaseStepUseful b1 s0 s1 s2 ph i).2.1 = b1 := by
  simp only [phaseStepUseful]
  split
  · rfl
  · exact phaseStepAvg_bus _ _ _ _ _ i

theorem phaseStep_bus (b : Bus) (s0 s1 s2 : Nat) (ph : Fin 4 → PhaseData) (i : Fin 4) :
    ((phaseStep b s0 s1 s2 ph i).2.1).readErr = b.readErr
    ∧ ((phaseStep b s0 s1 s2 ph i).2.1).writeErr = b.writeErr := by
  by_cases hw : b.writeErr SX9324_PHASE_SEL (i : Nat) = 0
  · have hstep : phaseStep b s0 s1 s2 ph i
        = phaseStepUseful (setReg b SX9324_PHASE_SEL (i : Nat)) s0 s1 s2 ph i := by
      simp [phaseStep, regmap_write, hw]
    rw [hstep, phaseStepUseful_bus]
    exact ⟨rfl, rfl⟩
  · have hstep : (phaseStep b s0 s1 s2 ph i).2.1 = b := by
      simp [phaseStep, regmap_write, hw]
    rw [hstep]
    exact ⟨rfl, rfl⟩

theorem phaseStepDiff_valid_strong (b1 : Bus) (s0 s1 s2 : Nat) (ph : Fin 4 → PhaseData)
    (i j : Fin 4) :
    (((phaseStepDiff b1 s0 s1 s2 ph i).2.2) j).is_valid = true →
      (ph j).is_valid = true
      ∨ (j = i ∧ b1.readErr SX9324_DIFF_MSB = 0 ∧ b1.readErr SX9324_DIFF_LSB = 0) := by
  simp only [phaseStepDiff]
  split
  · intro h
    exact Or.inl h
  · rename_i hed
    push_neg at hed
    intro h
    by_cases hij : j = i
    · right
      exact ⟨hij, ((lor_eq_zero_iff _ _).mp hed).1, ((lor_eq_zero_iff _ _).mp hed).2⟩
    · left
      simpa [updAt, hij] using h

theorem phaseStepAvg_valid_strong (b1 : Bus) (s0 s1 s2 : Nat) (ph : Fin 4 → PhaseData)
    (i j : Fin 4) :
    (((phaseStepAvg b1 s0 s1 s2 ph i).2.2) j).is_valid = true →
      (ph j).is_valid = true
      ∨ (j = i ∧ b1.readErr SX9324_AVG_MSB = 0 ∧ b1.readErr SX9324_AVG_LSB = 0
         ∧ b1.readErr SX9324_DIFF_MSB = 0 ∧ b1.readErr SX9324_DIFF_LSB = 0) := by
  simp only [phaseStepAvg]
  split
  · intro h
    exact Or.inl h
  · rename_i hea
    push_neg at hea
    intro h
    rcases phaseStepDiff_valid_strong b1 s0 s1 s2 _ i j h with h2 | ⟨hij, hd1, hd2⟩
    · by_cases hij : j = i
      · left
        simpa [updAt, hij] using h2
      · left
        rwa [updAt_ne _ _ _ _ hij] at h2
    · right
      exact ⟨hij, ((lor_eq_zero_iff _ _).mp hea).1, ((lor_eq_zero_iff _ _).mp hea).2,
        hd1, hd2⟩

theorem phaseStepUseful_valid_strong (b1 : Bus) (s0 s1 s2 : Nat) (ph : Fin 4 → PhaseData)
    (i j : Fin 4) :
    (((phaseStepUseful b1 s0 s1 s2 ph i).2.2) j).is_valid = true →
      (ph j).is_valid = true
      ∨ (j = i ∧ b1.readErr SX9324_USE_MSB = 0 ∧ b1.readErr SX9324_USE_LSB = 0
         ∧ b1.readErr SX9324_AVG_MSB = 0 ∧ b1.readErr SX9324_AVG_LSB = 0
         ∧ b1.readErr SX9324_DIFF_MSB = 0 ∧ b1.readErr SX9324_DIFF_LSB = 0) := by
  simp only [phaseStepUseful]
  split
  · intro h
    exact Or.inl h
  · rename_i heu
    push_neg at heu
    intro h
    rcases phaseStepAvg_valid_strong b1 s0 s1 s2 _ i j h with h2 | ⟨hij, ha1, ha2, hd1, hd2⟩
    · by_cases hij : j = i
      · left
        simpa [updAt, hij] using h2
      · left
        rwa [updAt_ne _ _ _ _ hij] at h2
    · right
      exact ⟨hij, ((lor_eq_zero_iff _ _).mp heu).1, ((lor_eq_zero_iff _ _).mp heu).2,
        ha1, ha2, hd1, hd2⟩

theorem phaseStep_valid_strong (b : Bus) (s0 s1 s2 : Nat) (ph : Fin 4 → PhaseData)
    (i j : Fin 4) :
    (((phaseStep b s0 s1 s2 ph i).2.2) j).is_valid = true →
      (ph j).is_valid = true
      ∨ (j = i ∧ b.writeErr SX9324_PHASE_SEL (i : Nat) = 0
         ∧ b.readErr SX9324_USE_MSB = 0 ∧ b.readErr SX9324_USE_LSB = 0
         ∧ b.readErr SX9324_AVG_MSB = 0 ∧ b.readErr SX9324_AVG_LSB = 0
         ∧ b.readErr SX9324_DIFF_MSB = 0 ∧ b.readErr SX9324_DIFF_LSB = 0) := by
  by_cases hw : b.writeErr SX9324_PHASE_SEL (i : Nat) = 0
  · have hstep : phaseStep b s0 s1 s2 ph i
        = phaseStepUseful (setReg b SX9324_PHASE_SEL (i : Nat)) s0 s1 s2 ph i := by
      simp [phaseStep, regmap_write, hw]
    rw [hstep]
    intro h
    rcases phaseStepUseful_valid_strong _ s0 s1 s2 ph i j h with h2 | ⟨hij, hrest⟩
    · exact Or.inl h2
    · exact Or.inr ⟨hij, hw, hrest⟩
  · have hstep : (phaseStep b s0 s1 s2 ph i).2.2 = ph := by
      simp [phaseStep, regmap_write, hw]
    rw [hstep]
    intro h
    exact Or.inl h

theorem phdataLoop_valid_strong (val s0 s1 s2 : Nat) (l : List (Fin 4)) :
    ∀ (b : Bus) (ph : Fin 4 → PhaseData) (i : Fin 4),
      (((phdataLoop val s0 s1 s2 b ph l).2.2) i).is_valid = true →
      (ph i).is_valid = true
      ∨ (b.writeErr SX9324_PHASE_SEL (i : Nat) = 0
         ∧ b.readErr SX9324_USE_MSB = 0 ∧ b.readErr SX9324_USE_LSB = 0
         ∧ b.readErr SX9324_AVG_MSB = 0 ∧ b.readErr SX9324_AVG_LSB = 0
         ∧ b.readErr SX9324_DIFF_MSB = 0 ∧ b.readErr SX9324_DIFF_LSB = 0) := by
  induction l with
  | nil =>
    intro b ph i h
    exact Or.inl h
  | cons j rest ih =>
    intro b ph i h
    have hcase : ((phdataLoop val s0 s1 s2 b ph (j :: rest)).2.2) i
        = ((if (val >>> (j : Nat)) &&& 1 ≠ 0 then
              (if (phaseStep b s0 s1 s2 ph j).1 ≠ 0 then phaseStep b s0 s1 s2 ph j
               else phdataLoop val s0 s1 s2 (phaseStep b s0 s1 s2 ph j).2.1
                 (phaseStep b s0 s1 s2 ph j).2.2 rest)
            else phdataLoop val s0 s1 s2 b ph rest).2.2) i := rfl
    rw [hcase] at h
    by_cases hj : (val >>> (j : Nat)) &&& 1 ≠ 0
    · rw [if_pos hj] at h
      by_cases hs : (phaseStep b s0 s1 s2 ph j).1 ≠ 0
      · rw [if_pos hs] at h
        rcases phaseStep_valid_strong b s0 s1 s2 ph j i h with h2 | ⟨hij, hrest⟩
        · exact Or.inl h2
        · right
          rw [hij]
          exact hrest
      · rw [if_neg hs] at h
        rcases ih (phaseStep b s0 s1 s2 ph j).2.1 (phaseStep b s0 s1 s2 ph j).2.2 i h with
          h2 | hc
        · rcases phaseStep_valid_strong b s0 s1 s2 ph j i h2 with h3 | ⟨hij, hrest⟩
          · exact Or.inl h3
          · right
            rw [hij]
            exact hrest
        · right
          have hb := phaseStep_bus b s0 s1 s2 ph j
          rw [hb.1, hb.2] at hc
          exact hc
    · rw [if_neg hj] at h
      exact ih b ph i h

theorem phdataLoop_bit_zero (val s0 s1 s2 : Nat) (l : List (Fin 4)) :
    ∀ (b : Bus) (ph : Fin 4 → PhaseData) (i : Fin 4),
      (val >>> (i : Nat)) &&& 1 = 0 →
      ((phdataLoop val s0 s1 s2 b ph l).2.2) i = ph i := by
  induction l with
  | nil =>
    intro b ph i _
    rfl
  | cons j rest ih =>
    intro b ph i h
    have hcase : ((phdataLoop val s0 s1 s2 b ph (j :: rest)).2.2) i
        = ((if (val >>> (j : Nat)) &&& 1 ≠ 0 then
              (if (phaseStep b s0 s1 s2 ph j).1 ≠ 0 then phaseStep b s0 s1 s2 ph j
               else phdataLoop val s0 s1 s2 (phaseStep b s0 s1 s2 ph j).2.1
                 (phaseStep b s0 s1 s2 ph j).2.2 rest)
            else phdataLoop val s0 s1 s2 b ph rest).2.2) i := rfl
    rw [hcase]
    by_cases hj : (val >>> (j : Nat)) &&& 1 ≠ 0
    · rw [if_pos hj]
      have hij : i ≠ j := by
        intro he
        rw [he] at h
        exact hj h
      by_cases hs : (phaseStep b s0 s1 s2 ph j).1 ≠ 0
      · rw [if_pos hs]
        exact phaseStep_ne b s0 s1 s2 ph j i hij
      · rw [if_neg hs]
        rw [ih _ _ i h]
        exact phaseStep_ne b s0 s1 s2 ph j i hij
    · rw [if_neg hj]
      exact ih b ph i h

theorem phdataLoop_valid_src (val s0 s1 s2 : Nat) (l : List (Fin 4)) :
    ∀ (b : Bus) (ph : Fin 4 → PhaseData) (i : Fin 4),
      (((phdataLoop val s0 s1 s2 b ph l).2.2) i).is_valid = true →
      (ph i).is_valid = true ∨ (val >>> (i : Nat)) &&& 1 ≠ 0 := by
  induction l with
  | nil =>
    intro b ph i h
    exact Or.inl h
  | cons j rest ih =>
    intro b ph i h
    have hcase : ((phdataLoop val s0 s1 s2 b ph (j :: rest)).2.2) i
        = ((if (val >>> (j : Nat)) &&& 1 ≠ 0 then
              (if (phaseStep b s0 s1 s2 ph j).1 ≠ 0 then phaseStep b s0 s1 s2 ph j
               else phdataLoop val s0 s1 s2 (phaseStep b s0 s1 s2 ph j).2.1
                 (phaseStep b s0 s1 s2 ph j).2.2 rest)
            else phdataLoop val s0 s1 s2 b ph rest).2.2) i := rfl
    rw [hcase] at h
    by_cases hj : (val >>> (j : Nat)) &&& 1 ≠ 0
    · rw [if_pos hj] at h
      by_cases hs : (phaseStep b s0 s1 s2 ph j).1 ≠ 0
      · rw [if_pos hs] at h
        rcases phaseStep_valid b s0 s1 s2 ph j i h with h2 | he
        · exact Or.inl h2
        · right
          rw [he]
          exact hj
      · rw [if_neg hs] at h
        rcases ih _ _ i h with h2 | h2
        · rcases phaseStep_valid b s0 s1 s2 ph j i h2 with h3 | he
          · exact Or.inl h3
          · right
            rw [he]
            exact hj
        · exact Or.inr h2
    · rw [if_neg hj] at h
      exact ih b ph i h

/-- C1 (amended): for every acquisition, an entry marked valid implies
that every bus access its data came from succeeded in that same
acquisition — the phase-enable read (with bit i of the returned value
set), the three status-register reads, the phase-select write for phase i
and all six measurement-byte reads — so neither stale nor partially read
data is ever reported as valid (in particular, an enabled phase whose
measurement reads fail midway is left marked invalid); a phase whose
enable bit is clear in that value keeps its previous entry contents,
merely marked invalid (untouched measurement fields); and when the
phase-enable read itself fails — the function's early error return —
every entry is marked invalid. -/
theorem c1_read_phdata_snapshot (b : Bus) (ph : Fin 4 → PhaseData) (i : Fin 4) :
    (((sx9324_read_phdata b ph).2.2 i).is_valid = true →
      b.readErr SX9324_GNRL_CTRL_1 = 0
      ∧ (b.regs SX9324_GNRL_CTRL_1 >>> (i : Nat)) &&& 1 ≠ 0
      ∧ b.readErr SX9324_STAT_0 = 0 ∧ b.readErr SX9324_STAT_1 = 0
      ∧ b.readErr SX9324_STAT_2 = 0
      ∧ b.writeErr SX9324_PHASE_SEL (i : Nat) = 0
      ∧ b.readErr SX9324_USE_MSB = 0 ∧ b.readErr SX9324_USE_LSB = 0
      ∧ b.readErr SX9324_AVG_MSB = 0 ∧ b.readErr SX9324_AVG_LSB = 0
      ∧ b.readErr SX9324_DIFF_MSB = 0 ∧ b.readErr SX9324_DIFF_LSB = 0)
    ∧ ((b.regs SX9324_GNRL_CTRL_1 >>> (i : Nat)) &&& 1 = 0 →
        (sx9324_read_phdata b ph).2.2 i = { ph i with is_valid := false })
    ∧ (b.readErr SX9324_GNRL_CTRL_1 ≠ 0 →
        ((sx9324_read_phdata b ph).2.2 i).is_valid = false) := by
  have hchar : (sx9324_read_phdata b ph).2.2
      = if b.readErr SX9324_GNRL_CTRL_1 ≠ 0 then
          (fun k => { ph k with is_valid := false })
        else if b.regs SX9324_GNRL_CTRL_1 &&& SX9324_PHEN ≠ 0 then
          (if (b.readErr SX9324_STAT_0 ||| b.readErr SX9324_STAT_1)
                ||| b.readErr SX9324_STAT_2 ≠ 0 then
            (fun k => { ph k with is_valid := false })
          else
            (phdataLoop (b.regs SX9324_GNRL_CTRL_1) (b.regs SX9324_STAT_0)
              (b.regs SX9324_STAT_1) (b.regs SX9324_STAT_2) b
              (fun k => { ph k with is_valid := false }) [0, 1, 2, 3]).2.2)
        else (fun k => { ph k with is_valid := false }) := by
    simp only [sx9324_read_phdata]
    split
    · rfl
    · split
      · split
        · rfl
        · rfl
      · rfl
  refine ⟨?_, ?_, ?_⟩
  · intro hv
    rw [hchar] at hv
    by_cases h1 : b.readErr SX9324_GNRL_CTRL_1 ≠ 0
    · rw [if_pos h1] at hv
      simp at hv
    · rw [if_neg h1] at hv
      push_neg at h1
      by_cases h2 : b.regs SX9324_GNRL_CTRL_1 &&& SX9324_PHEN ≠ 0
      · rw [if_pos h2] at hv
        by_cases h3 : (b.readErr SX9324_STAT_0 ||| b.readErr SX9324_STAT_1)
            ||| b.readErr SX9324_STAT_2 ≠ 0
        · rw [if_pos h3] at hv
          simp at hv
        · rw [if_neg h3] at hv
          push_neg at h3
          have hst01 := (lor_eq_zero_iff _ _).mp ((lor_eq_zero_iff _ _).mp h3).1
          have hst2 := ((lor_eq_zero_iff _ _).mp h3).2
          have hbit : (b.regs SX9324_GNRL_CTRL_1 >>> (i : Nat)) &&& 1 ≠ 0 := by
            rcases phdataLoop_valid_src (b.regs SX9324_GNRL_CTRL_1)
                (b.regs SX9324_STAT_0) (b.regs SX9324_STAT_1) (b.regs SX9324_STAT_2)
                [0, 1, 2, 3] b (fun k => { ph k with is_valid := false }) i hv with
              h4 | h4
            · simp at h4
            · exact h4
          rcases phdataLoop_valid_strong (b.regs SX9324_GNRL_CTRL_1)
              (b.regs SX9324_STAT_0) (b.regs SX9324_STAT_1) (b.regs SX9324_STAT_2)
              [0, 1, 2, 3] b (fun k => { ph k with is_valid := false }) i hv with
            h4 | h4
          · simp at h4
          · exact ⟨h1, hbit, hst01.1, hst01.2, hst2, h4⟩
      · rw [if_neg h2] at hv
        simp at hv
  · intro hb
    rw [hchar]
    by_cases h1 : b.readErr SX9324_GNRL_CTRL_1 ≠ 0
    · rw [if_pos h1]
    · rw [if_neg h1]
      by_cases h2 : b.regs SX9324_GNRL_CTRL_1 &&& SX9324_PHEN ≠ 0
      · rw [if_pos h2]
        by_cases h3 : (b.readErr SX9324_STAT_0 ||| b.readErr SX9324_STAT_1)
            ||| b.readErr SX9324_STAT_2 ≠ 0
        · rw [if_pos h3]
        · rw [if_neg h3]
          exact phdataLoop_bit_zero (b.regs SX9324_GNRL_CTRL_1) (b.regs SX9324_STAT_0)
            (b.regs SX9324_STAT_1) (b.regs SX9324_STAT_2) [0, 1, 2, 3] b
            (fun k => { ph k with is_valid := false }) i hb
      · rw [if_neg h2]
  · intro h1
    rw [hchar, if_pos h1]

/-- C1 counterexample, two concrete refutations of the claim.  First
(cxPhBus: phase 0 enabled, useful pair reading (0, 5), AVG_MSB read
failing): the call returns an error with entry 0 invalid but its
proxuseful field already overwritten to 5 — neither untouched (it was 0
before) nor zero — refuting "every entry whose validity flag is false has
untouched (default/zero) measurement fields".  Second (cx2PhBus: phases 0
and 1 enabled, the phase-select write failing only for phase 1): the call
returns an error yet entry 0, completed before the failure, is marked
valid — refuting "on any early error return all four entries are marked
invalid". -/
theorem c1_counterexample :
    ((sx9324_read_phdata cxPhBus (fun _ => phInit)).2.2 0).is_valid = false
    ∧ ((sx9324_read_phdata cxPhBus (fun _ => phInit)).2.2 0).proxuseful = 5
    ∧ phInit.proxuseful = 0
    ∧ (sx9324_read_phdata cxPhBus (fun _ => phInit)).1 ≠ 0
    ∧ (sx9324_read_phdata cx2PhBus (fun _ => phInit)).1 ≠ 0
    ∧ ((sx9324_read_phdata cx2PhBus (fun _ => phInit)).2.2 0).is_valid = true := by
  exact ⟨by decide, by decide, by decide, by decide, by decide, by decide⟩

/-- Witness for C1 (amended): on the same bus, phase 1 is disabled, so its
entry is the old entry marked invalid. -/
theorem c1_witness :
    (sx9324_read_phdata cxPhBus (fun _ => phInit)).2.2 1
      = { phInit with is_valid := false } := by
  have h := (c1_read_phdata_snapshot cxPhBus (fun _ => phInit) 1).2.1
  exact h (by decide)
